import Mathlib

/-!
Verification development for the agent-orchestration core of the repository:
the capacity-bounded `DomainAgent` task dispatcher (`src/agents/domain_agent.py`),
the `AgentOrchestrator` workflow runner (`src/agents/agent_orchestrator.py`),
the `RateLimiter` (`src/agents/utils.py`) and the `ErrorHandler`
(`src/agents/error_handler.py`).

Python exceptions are modelled with an explicit error type (`PyError`) and
`Except`/`Option` results; Python `time.time()` values and the rate limiter
interval are modelled as rationals; `datetime` values are modelled at
micro-second granularity by the `Timestamp` structure.  Out-of-scope agent
bodies (`_execute_task_impl`, `research_topic`, ...) are inputs: the embedding
is parameterised by their outcome (return value or raised exception).
-/

/-- A Python exception, carrying what `str(e)` would produce.
`zeroDivisionError` models Python's `ZeroDivisionError` raised by `60 / 0`. -/
inductive PyError where
  | zeroDivisionError
  | runtimeError (msg : String)
  | valueError (msg : String)
  | keyError (key : String)
  deriving DecidableEq, Repr

/-- `str(e)` for a modelled Python exception.  (For `KeyError` Python wraps the
key in quotes; the quotes are omitted here, no claim depends on them.) -/
def PyError.str : PyError → String
  | .zeroDivisionError => "division by zero"
  | .runtimeError msg => msg
  | .valueError msg => msg
  | .keyError key => key

instance {ε α : Type} [DecidableEq ε] [DecidableEq α] : DecidableEq (Except ε α) := fun x y =>
  match x, y with
  | .error a, .error b =>
    if h : a = b then .isTrue (by rw [h]) else .isFalse (by simp [h])
  | .ok a, .ok b =>
    if h : a = b then .isTrue (by rw [h]) else .isFalse (by simp [h])
  | .error _, .ok _ => .isFalse (by simp)
  | .ok _, .error _ => .isFalse (by simp)

/-! ## RateLimiter (`src/agents/utils.py`, lines 7-25) -/

/-- State of `RateLimiter` (`src/agents/utils.py` lines 8-12): the configured
rate, the derived `interval = 60 / calls_per_minute`, and the time of the
previous permitted call.  The `asyncio.Lock` serialises the gate; calls are
therefore modelled as a sequence of gate passages. -/
structure RateLimiter where
  calls_per_minute : Int
  interval : ℚ
  last_call_time : ℚ
  deriving DecidableEq, Repr

namespace RateLimiter

/-- `RateLimiter.__init__` (lines 8-12).  Python evaluates
`60 / calls_per_minute` eagerly, so `calls_per_minute = 0` raises
`ZeroDivisionError`; otherwise the limiter starts with `last_call_time = 0`. -/
def mkLimiter (calls_per_minute : Int) : Except PyError RateLimiter :=
  if calls_per_minute = 0 then .error .zeroDivisionError
  else .ok { calls_per_minute := calls_per_minute
             interval := 60 / (calls_per_minute : ℚ)
             last_call_time := 0 }

/-- The sleep the gate of `__call__` (lines 16-22) imposes when entered at
instant `now`: `interval - (now - last_call_time)` when that gap is still
shorter than `interval`, and no sleep otherwise. -/
def sleepTime (rl : RateLimiter) (now : ℚ) : ℚ :=
  if now - rl.last_call_time < rl.interval then rl.interval - (now - rl.last_call_time)
  else 0

/-- Line 24: after the (possible) sleep, `last_call_time` is set to the current
time, which is the instant the call is permitted. -/
def record (rl : RateLimiter) (permitTime : ℚ) : RateLimiter :=
  { rl with last_call_time := permitTime }

/-- One passage through the `__call__` gate: the caller enters at `arrive`
(the first `time.time()` read, line 16) and is permitted at `permit` (the
second read, line 24, taken after sleeping).  `asyncio.sleep` never wakes
early, so `permit` is at least `arrive` plus the computed sleep. -/
structure CallEvent where
  arrive : ℚ
  permit : ℚ
  deriving DecidableEq, Repr

/-- Validity of one gate passage from limiter state `rl`. -/
def validEvent (rl : RateLimiter) (e : CallEvent) : Prop :=
  e.arrive + rl.sleepTime e.arrive ≤ e.permit

instance (rl : RateLimiter) (e : CallEvent) : Decidable (validEvent rl e) := by
  unfold validEvent; infer_instance

/-- Validity of a sequence of gate passages (the lock serialises them). -/
def validTrace (rl : RateLimiter) : List CallEvent → Prop
  | [] => True
  | e :: es => validEvent rl e ∧ validTrace (rl.record e.permit) es

/-- Running a sequence of gate passages updates `last_call_time` in order. -/
def runCalls (rl : RateLimiter) : List CallEvent → RateLimiter
  | [] => rl
  | e :: es => runCalls (rl.record e.permit) es

theorem record_interval (rl : RateLimiter) (t : ℚ) : (rl.record t).interval = rl.interval :=
  rfl

theorem record_last (rl : RateLimiter) (t : ℚ) : (rl.record t).last_call_time = t :=
  rfl

/-- Core gate bound: any valid passage is permitted no earlier than one full
`interval` after the previous permitted call. -/
theorem validEvent_permit_ge (rl : RateLimiter) (e : CallEvent) (h : validEvent rl e) :
    rl.last_call_time + rl.interval ≤ e.permit := by
  unfold validEvent sleepTime at h
  by_cases hc : e.arrive - rl.last_call_time < rl.interval
  · rw [if_pos hc] at h
    linarith
  · rw [if_neg hc] at h
    push_neg at hc
    linarith

/-- Over a whole valid trace, `last_call_time` advances by at least one
`interval` per call. -/
theorem runCalls_last_ge (es : List CallEvent) :
    ∀ rl : RateLimiter, validTrace rl es →
      rl.last_call_time + es.length * rl.interval ≤ (runCalls rl es).last_call_time := by
  induction es with
  | nil =>
    intro rl _
    simp [runCalls]
  | cons e es ih =>
    intro rl hv
    obtain ⟨he, hes⟩ := hv
    have h1 := validEvent_permit_ge rl e he
    have h2 := ih (rl.record e.permit) hes
    rw [record_interval, record_last] at h2
    simp only [runCalls, List.length_cons]
    push_cast
    linarith

end RateLimiter

/-- C8: for `calls_per_minute = N ≥ 1`, any valid sequence of `1 + k` gate
passages through one `RateLimiter` has its last permitted call at least
`k * 60 / N` seconds after the first permitted call: consecutive permitted
calls are separated by at least `interval = 60 / N` seconds measured from the
start (permit instant) of the previous permitted call, so `K` sequential calls
take at least `(K - 1) * 60 / N` seconds of wall-clock time. -/
theorem rate_limiter_sequential_calls_lower_bound
    (N : Int) (hN : 1 ≤ N) (rl : RateLimiter)
    (hinit : RateLimiter.mkLimiter N = .ok rl)
    (e : RateLimiter.CallEvent) (es : List RateLimiter.CallEvent)
    (hv : RateLimiter.validTrace rl (e :: es)) :
    e.permit + es.length * (60 / (N : ℚ)) ≤
      (RateLimiter.runCalls rl (e :: es)).last_call_time := by
  have hne : N ≠ 0 := by omega
  have hrl : rl.interval = 60 / (N : ℚ) := by
    simp only [RateLimiter.mkLimiter, if_neg hne, Except.ok.injEq] at hinit
    rw [← hinit]
  obtain ⟨he, hes⟩ := hv
  have h := RateLimiter.runCalls_last_ge es (rl.record e.permit) hes
  rw [RateLimiter.record_interval, RateLimiter.record_last, hrl] at h
  simpa [RateLimiter.runCalls] using h

/-- Witness for C8: `N = 60` (interval one second), two calls `⟨0, 1⟩` and
`⟨1, 2⟩`; the second permitted call is one full interval after the first. -/
theorem rate_limiter_sequential_calls_lower_bound_witness :
    (1 : Int) ≤ 60 ∧
    RateLimiter.mkLimiter 60 = .ok ⟨60, 1, 0⟩ ∧
    RateLimiter.validTrace ⟨60, 1, 0⟩ [⟨0, 1⟩, ⟨1, 2⟩] ∧
    (⟨0, 1⟩ : RateLimiter.CallEvent).permit +
        ([⟨1, 2⟩] : List RateLimiter.CallEvent).length * (60 / ((60 : Int) : ℚ)) ≤
      (RateLimiter.runCalls ⟨60, 1, 0⟩ [⟨0, 1⟩, ⟨1, 2⟩]).last_call_time := by
  have h1 : RateLimiter.mkLimiter 60 = .ok ⟨60, 1, 0⟩ := by
    norm_num [RateLimiter.mkLimiter]
  have h2 : RateLimiter.validTrace ⟨60, 1, 0⟩ [⟨0, 1⟩, ⟨1, 2⟩] := by
    refine ⟨?_, ?_, trivial⟩ <;>
      norm_num [RateLimiter.validEvent, RateLimiter.sleepTime, RateLimiter.record]
  exact ⟨by norm_num, h1, h2,
    rate_limiter_sequential_calls_lower_bound 60 (by norm_num) ⟨60, 1, 0⟩ h1 ⟨0, 1⟩ [⟨1, 2⟩] h2⟩

/-- C10: constructing a `RateLimiter` with `calls_per_minute = 0` fails with
`ZeroDivisionError` (the constructor computes `60 / calls_per_minute`
unguarded); for every `calls_per_minute = n ≥ 1` it succeeds with
`interval = 60 / n` and `last_call_time = 0`. -/
theorem mkLimiter_zero_fails_pos_succeeds (n : Int) (hn : 1 ≤ n) :
    RateLimiter.mkLimiter 0 = .error .zeroDivisionError ∧
    RateLimiter.mkLimiter n =
      .ok { calls_per_minute := n, interval := 60 / (n : ℚ), last_call_time := 0 } := by
  have hne : n ≠ 0 := by omega
  exact ⟨by simp [RateLimiter.mkLimiter], by simp [RateLimiter.mkLimiter, hne]⟩

/-- Witness for C10 at `n = 5`. -/
theorem mkLimiter_zero_fails_pos_succeeds_witness :
    (1 : Int) ≤ 5 ∧
    (RateLimiter.mkLimiter 0 = .error .zeroDivisionError ∧
     RateLimiter.mkLimiter 5 =
       .ok { calls_per_minute := 5, interval := 60 / ((5 : Int) : ℚ), last_call_time := 0 }) :=
  ⟨by norm_num, mkLimiter_zero_fails_pos_succeeds 5 (by norm_num)⟩

/-! ## Python `dict` as an association list

Keys are strings; `dictInsert` is `d[k] = v` (replace the binding if the key
is present, append otherwise) and `dictLookup` is `d.get(k)` / `d[k]`. -/

/-- Python `d[k] = v`. -/
def dictInsert {α : Type} : List (String × α) → String → α → List (String × α)
  | [], k, v => [(k, v)]
  | p :: rest, k, v => if p.1 = k then (k, v) :: rest else p :: dictInsert rest k v

/-- Python `d.get(k)`: first binding of `k`, if any. -/
def dictLookup {α : Type} : List (String × α) → String → Option α
  | [], _ => none
  | p :: rest, k => if p.1 = k then some p.2 else dictLookup rest k

theorem dictLookup_dictInsert_self {α : Type} (l : List (String × α)) (k : String) (v : α) :
    dictLookup (dictInsert l k v) k = some v := by
  induction l with
  | nil => simp [dictInsert, dictLookup]
  | cons p rest ih =>
    by_cases hp : p.1 = k
    · simp [dictInsert, dictLookup, hp]
    · simp [dictInsert, dictLookup, hp, ih]

theorem dictInsert_length_of_lookup_some {α : Type} (l : List (String × α)) (k : String) (v w : α)
    (h : dictLookup l k = some w) : (dictInsert l k v).length = l.length := by
  induction l with
  | nil => simp [dictLookup] at h
  | cons p rest ih =>
    by_cases hp : p.1 = k
    · simp [dictInsert, hp]
    · simp only [dictLookup, if_neg hp] at h
      simp [dictInsert, hp, ih h]

theorem dictInsert_snd_mem {α : Type} (l : List (String × α)) (k : String) (v w : α)
    (h : w ∈ (dictInsert l k v).map Prod.snd) : w = v ∨ w ∈ l.map Prod.snd := by
  induction l with
  | nil => simpa [dictInsert] using h
  | cons p rest ih =>
    by_cases hp : p.1 = k
    · simp only [dictInsert, if_pos hp, List.map_cons, List.mem_cons] at h
      rcases h with h | h
      · exact Or.inl h
      · exact Or.inr (by simp [h])
    · simp only [dictInsert, if_neg hp, List.map_cons, List.mem_cons] at h
      rcases h with h | h
      · exact Or.inr (by simp [h])
      · rcases ih h with h' | h'
        · exact Or.inl h'
        · exact Or.inr (by simp [h'])

/-! ## ErrorHandler (`src/agents/error_handler.py`) -/

/-- `ErrorSeverity` (lines 8-13). -/
inductive ErrorSeverity where
  | debug
  | info
  | warning
  | error
  | critical
  deriving DecidableEq, Repr

/-- A `datetime.now()` value at microsecond granularity. -/
structure Timestamp where
  year : Nat
  month : Nat
  day : Nat
  hour : Nat
  minute : Nat
  second : Nat
  micro : Nat
  deriving DecidableEq, Repr

/-- Zero-padded decimal rendering, as `strftime` field formatting does. -/
def padNum (width n : Nat) : String :=
  let s := toString n
  String.mk (List.replicate (width - s.length) '0') ++ s

/-- `strftime("%Y%m%d_%H%M%S")` (line 39): second granularity, the
microsecond field does not appear. -/
def Timestamp.strftimeKey (t : Timestamp) : String :=
  padNum 4 t.year ++ padNum 2 t.month ++ padNum 2 t.day ++ "_" ++
    padNum 2 t.hour ++ padNum 2 t.minute ++ padNum 2 t.second

/-- Python exception class name, as `type(error).__name__` (line 46). -/
def PyError.typeName : PyError → String
  | .zeroDivisionError => "ZeroDivisionError"
  | .runtimeError _ => "RuntimeError"
  | .valueError _ => "ValueError"
  | .keyError _ => "KeyError"

/-- `ErrorContext` (lines 15-24). -/
structure ErrorContext where
  timestamp : Timestamp
  agent_name : String
  operation : String
  severity : ErrorSeverity
  error_type : String
  error_message : String
  stack_trace : Option String := none
  additional_data : Option (List (String × String)) := none
  deriving DecidableEq, Repr

/-- `ErrorHandler` state (lines 26-29): the agent name and the
`error_log` dict keyed by generated error id. -/
structure ErrorHandler where
  agent_name : String
  error_log : List (String × ErrorContext)
  deriving DecidableEq, Repr

/-- The generated error id (line 39): `{agent_name}_{now:%Y%m%d_%H%M%S}`. -/
def ErrorHandler.errorId (h : ErrorHandler) (now : Timestamp) : String :=
  h.agent_name ++ "_" ++ now.strftimeKey

/-- `ErrorHandler.handle_error` (lines 31-55): builds an `ErrorContext` from
the exception and the clock, stores it in `error_log` under the generated id,
and returns it.  `datetime.now()` is passed in as `now`; the
`traceback.format_exc()` text is passed in as `stack_trace`. -/
def ErrorHandler.handle_error (h : ErrorHandler) (error : PyError) (operation : String)
    (severity : ErrorSeverity) (now : Timestamp) (stack_trace : Option String)
    (additional_data : Option (List (String × String))) : ErrorHandler × ErrorContext :=
  let error_context : ErrorContext :=
    { timestamp := now
      agent_name := h.agent_name
      operation := operation
      severity := severity
      error_type := error.typeName
      error_message := error.str
      stack_trace := stack_trace
      additional_data := additional_data }
  ({ h with error_log := dictInsert h.error_log (h.errorId now) error_context }, error_context)

/-- `ErrorHandler.get_error_history` (lines 80-82). -/
def ErrorHandler.get_error_history (h : ErrorHandler) : List (String × ErrorContext) :=
  h.error_log

theorem dictInsert_keys_subset {α : Type} (l : List (String × α)) (k : String) (v : α)
    (x : String) (hx : x ∈ (dictInsert l k v).map Prod.fst) :
    x = k ∨ x ∈ l.map Prod.fst := by
  induction l with
  | nil => simpa [dictInsert] using hx
  | cons p rest ih =>
    by_cases hp : p.1 = k
    · simp only [dictInsert, if_pos hp, List.map_cons, List.mem_cons] at hx
      rcases hx with hx | hx
      · exact Or.inl hx
      · exact Or.inr (by simp [hx])
    · simp only [dictInsert, if_neg hp, List.map_cons, List.mem_cons] at hx
      rcases hx with hx | hx
      · exact Or.inr (by simp [hx])
      · rcases ih hx with h' | h'
        · exact Or.inl h'
        · exact Or.inr (by simp [h'])

theorem dictInsert_keys_nodup {α : Type} (l : List (String × α)) (k : String) (v : α)
    (hnd : (l.map Prod.fst).Nodup) : ((dictInsert l k v).map Prod.fst).Nodup := by
  induction l with
  | nil => simp [dictInsert]
  | cons p rest ih =>
    simp only [List.map_cons, List.nodup_cons] at hnd
    by_cases hp : p.1 = k
    · simp only [dictInsert, if_pos hp, List.map_cons, List.nodup_cons]
      exact ⟨hp ▸ hnd.1, hnd.2⟩
    · simp only [dictInsert, if_neg hp, List.map_cons, List.nodup_cons]
      refine ⟨fun hmem => ?_, ih hnd.2⟩
      rcases dictInsert_keys_subset rest k v p.1 hmem with h' | h'
      · exact hp h'
      · exact hnd.1 h'

/-- Entries of `dictInsert l k v` on a duplicate-free dict: either the new
binding, or an old binding whose key is not `k`. -/
theorem mem_dictInsert_elim {α : Type} (l : List (String × α)) (k : String) (v : α)
    (hnd : (l.map Prod.fst).Nodup) (p : String × α) (hp : p ∈ dictInsert l k v) :
    p = (k, v) ∨ (p ∈ l ∧ p.1 ≠ k) := by
  induction l with
  | nil => simpa [dictInsert] using hp
  | cons q rest ih =>
    simp only [List.map_cons, List.nodup_cons] at hnd
    by_cases hq : q.1 = k
    · simp only [dictInsert, if_pos hq, List.mem_cons] at hp
      rcases hp with hp | hp
      · exact Or.inl hp
      · refine Or.inr ⟨List.mem_cons_of_mem q hp, fun hk => ?_⟩
        exact (hq ▸ hnd.1) (hk ▸ List.mem_map_of_mem Prod.fst hp)
    · simp only [dictInsert, if_neg hq, List.mem_cons] at hp
      rcases hp with hp | hp
      · exact Or.inr ⟨by simp [hp], hp ▸ hq⟩
      · rcases ih hnd.2 hp with h' | h'
        · exact Or.inl h'
        · exact Or.inr ⟨List.mem_cons_of_mem q h'.1, h'.2⟩

/-- C9: two `handle_error` calls on the same `ErrorHandler` whose timestamps
format to the same second (`%Y%m%d_%H%M%S`) generate equal error ids, so the
second call overwrites the first entry: the error log does not grow between
the first and the second call, `get_error_history` maps the shared id to the
second `ErrorContext`, and the first `ErrorContext` is no longer present
(unless it equals the second or was already in the log before). -/
theorem handle_error_same_second_overwrites
    (h : ErrorHandler) (e1 e2 : PyError) (op1 op2 : String)
    (sev1 sev2 : ErrorSeverity) (t1 t2 : Timestamp) (st1 st2 : Option String)
    (ad1 ad2 : Option (List (String × String)))
    (hsec : t1.strftimeKey = t2.strftimeKey)
    (hnd : (h.error_log.map Prod.fst).Nodup) :
    (h.handle_error e1 op1 sev1 t1 st1 ad1).1.errorId t2 = h.errorId t1 ∧
    ((h.handle_error e1 op1 sev1 t1 st1 ad1).1.handle_error e2 op2 sev2 t2 st2 ad2).1.error_log.length =
      (h.handle_error e1 op1 sev1 t1 st1 ad1).1.error_log.length ∧
    dictLookup
      ((h.handle_error e1 op1 sev1 t1 st1 ad1).1.handle_error e2 op2 sev2 t2 st2 ad2).1.get_error_history
      (h.errorId t1) =
      some ((h.handle_error e1 op1 sev1 t1 st1 ad1).1.handle_error e2 op2 sev2 t2 st2 ad2).2 ∧
    ((h.handle_error e1 op1 sev1 t1 st1 ad1).2 ≠
        ((h.handle_error e1 op1 sev1 t1 st1 ad1).1.handle_error e2 op2 sev2 t2 st2 ad2).2 →
      (h.handle_error e1 op1 sev1 t1 st1 ad1).2 ∉ h.error_log.map Prod.snd →
      (h.handle_error e1 op1 sev1 t1 st1 ad1).2 ∉
        ((h.handle_error e1 op1 sev1 t1 st1 ad1).1.handle_error e2 op2 sev2 t2 st2 ad2).1.get_error_history.map
          Prod.snd) := by
  have hid : (h.handle_error e1 op1 sev1 t1 st1 ad1).1.errorId t2 = h.errorId t1 := by
    simp [ErrorHandler.handle_error, ErrorHandler.errorId, hsec]
  refine ⟨hid, ?_, ?_, ?_⟩
  · simp only [ErrorHandler.handle_error, ErrorHandler.errorId] at hid ⊢
    rw [hid]
    exact dictInsert_length_of_lookup_some _ _ _ _
      (dictLookup_dictInsert_self h.error_log (h.errorId t1) _)
  · simp only [ErrorHandler.handle_error, ErrorHandler.get_error_history] at hid ⊢
    rw [hid]
    exact dictLookup_dictInsert_self _ _ _
  · intro hne hold hmem
    simp only [ErrorHandler.handle_error, ErrorHandler.get_error_history] at hid hmem
    rw [hid] at hmem
    set c1 := (h.handle_error e1 op1 sev1 t1 st1 ad1).2 with hc1
    simp only [ErrorHandler.handle_error] at hc1
    obtain ⟨p, hpmem, hpsnd⟩ := List.mem_map.mp hmem
    have hnd1 := dictInsert_keys_nodup h.error_log (h.errorId t1)
      ((h.handle_error e1 op1 sev1 t1 st1 ad1).2) hnd
    simp only [ErrorHandler.handle_error] at hnd1
    rcases mem_dictInsert_elim _ _ _ hnd1 p hpmem with hp | ⟨hp1, hp2⟩
    · apply hne
      rw [hc1]
      simp only [ErrorHandler.handle_error]
      rw [← hpsnd, hp]
    · rcases mem_dictInsert_elim _ _ _ hnd p hp1 with hp' | ⟨hp1', _⟩
      · exact hp2 (by rw [hp'])
      · apply hold
        rw [hc1, ← hpsnd]
        exact List.mem_map_of_mem Prod.snd hp1'

/-- Fresh handler used to instantiate C9. -/
def c9Handler : ErrorHandler := ⟨"agentA", []⟩

/-- First timestamp of the C9 instance. -/
def c9T1 : Timestamp := ⟨2024, 1, 2, 3, 4, 5, 0⟩

/-- Second timestamp of the C9 instance: same second, different microsecond. -/
def c9T2 : Timestamp := ⟨2024, 1, 2, 3, 4, 5, 999999⟩

/-- Witness for C9: two errors handled in the same formatted second on a fresh
handler. -/
theorem handle_error_same_second_overwrites_witness :
    c9T1.strftimeKey = c9T2.strftimeKey ∧
    ((c9Handler.error_log.map Prod.fst).Nodup) ∧
    ((c9Handler.handle_error (.valueError "boom1") "research" .error c9T1 none none).1.errorId c9T2 =
        c9Handler.errorId c9T1 ∧
      ((c9Handler.handle_error (.valueError "boom1") "research" .error c9T1 none none).1.handle_error
          (.valueError "boom2") "documentation" .error c9T2 none none).1.error_log.length =
        (c9Handler.handle_error (.valueError "boom1") "research" .error c9T1 none none).1.error_log.length ∧
      dictLookup
        ((c9Handler.handle_error (.valueError "boom1") "research" .error c9T1 none none).1.handle_error
            (.valueError "boom2") "documentation" .error c9T2 none none).1.get_error_history
        (c9Handler.errorId c9T1) =
        some ((c9Handler.handle_error (.valueError "boom1") "research" .error c9T1 none none).1.handle_error
            (.valueError "boom2") "documentation" .error c9T2 none none).2 ∧
      ((c9Handler.handle_error (.valueError "boom1") "research" .error c9T1 none none).2 ≠
          ((c9Handler.handle_error (.valueError "boom1") "research" .error c9T1 none none).1.handle_error
              (.valueError "boom2") "documentation" .error c9T2 none none).2 →
        (c9Handler.handle_error (.valueError "boom1") "research" .error c9T1 none none).2 ∉
          c9Handler.error_log.map Prod.snd →
        (c9Handler.handle_error (.valueError "boom1") "research" .error c9T1 none none).2 ∉
          ((c9Handler.handle_error (.valueError "boom1") "research" .error c9T1 none none).1.handle_error
              (.valueError "boom2") "documentation" .error c9T2 none none).1.get_error_history.map
            Prod.snd)) :=
  ⟨rfl, by simp [c9Handler],
    handle_error_same_second_overwrites c9Handler (.valueError "boom1") (.valueError "boom2")
      "research" "documentation" .error .error c9T1 c9T2 none none none none rfl
      (by simp [c9Handler])⟩

/-! ## DomainAgent (`src/agents/domain_agent.py`)

The task-specific body `_execute_task_impl` is supplied by concrete agents and
is out of scope; its outcome (a returned result map or a raised exception) is
an input of the embedding (`TaskOutcome`).  A coroutine executing
`execute_task` suspends at the `await` of `_execute_task_impl` (line 61), so
the call is modelled in two observable halves: `dispatch` (the guards and the
`BUSY`/append mutations, lines 50-58) and `finish` (the completion handling,
lines 63-71); `execute_task` is their composition. -/

/-- `AgentStatus` (lines 7-12). -/
inductive AgentStatus where
  | initializing
  | ready
  | busy
  | error
  | shutdown
  deriving DecidableEq, Repr

/-- `AgentCapability` (lines 14-19). -/
inductive AgentCapability where
  | data_analysis
  | report_generation
  | monitoring
  | alerting
  | task_management
  deriving DecidableEq, Repr

/-- `AgentConfig` (lines 21-26). -/
structure AgentConfig where
  agent_id : String
  capabilities : List AgentCapability
  max_concurrent_tasks : Int := 3
  timeout_seconds : Int := 300
  deriving DecidableEq, Repr

/-- `DomainAgent` mutable state (lines 29-35).  `metrics_client` records
whether `initialize` allocated a `MetricsClient`. -/
structure DomainAgent where
  config : AgentConfig
  status : AgentStatus
  current_tasks : List String
  metrics_client : Bool
  deriving DecidableEq, Repr

/-- A result map returned by a task body (`Dict[str, Any]`, values elided to
strings; no claim inspects them). -/
abbrev ResultMap := List (String × String)

/-- The outcome of the out-of-scope `_execute_task_impl` body. -/
inductive TaskOutcome where
  | success (result : ResultMap)
  | raises (e : PyError)
  deriving DecidableEq, Repr

namespace DomainAgent

/-- `DomainAgent.__init__` (lines 29-35). -/
def new (config : AgentConfig) : DomainAgent :=
  { config := config, status := .initializing, current_tasks := [], metrics_client := false }

/-- The `RuntimeError` of line 51. -/
def notReadyError (a : DomainAgent) : PyError :=
  .runtimeError ("Agent " ++ a.config.agent_id ++ " is not ready")

/-- The `RuntimeError` of line 54. -/
def capacityError (a : DomainAgent) : PyError :=
  .runtimeError ("Agent " ++ a.config.agent_id ++ " is at maximum capacity")

/-- `initialize` (lines 37-46): on successful `MetricsClient()` allocation the
status becomes `READY`; if the allocation raises, the status becomes `ERROR`
and the exception propagates. -/
def initStep (a : DomainAgent) (metricsOk : Bool) : DomainAgent :=
  if metricsOk then { a with metrics_client := true, status := .ready }
  else { a with status := .error }

/-- First half of `execute_task` (lines 50-58): the status guard (line 50),
the capacity guard (line 53), then `status = BUSY` and the append of the task
id.  `none` means the task was accepted; `some e` is the raised rejection. -/
def dispatch (a : DomainAgent) (task_id : String) : DomainAgent × Option PyError :=
  if a.status ≠ .ready then (a, some a.notReadyError)
  else if a.config.max_concurrent_tasks ≤ (a.current_tasks.length : Int) then
    (a, some a.capacityError)
  else ({ a with status := .busy, current_tasks := a.current_tasks ++ [task_id] }, none)

/-- Second half of `execute_task` (lines 63-71), entered when the awaited
`_execute_task_impl` settles.  On success the task id is removed (first
occurrence, as Python `list.remove`) and the status reverts to `READY` iff no
task remains (lines 63-65); on exception the status becomes `ERROR` and the
exception is re-raised — the `except` branch (lines 68-71) does NOT remove the
task id. -/
def finish (a : DomainAgent) (task_id : String) : TaskOutcome → DomainAgent × Except PyError ResultMap
  | .success r =>
    let ts := a.current_tasks.erase task_id
    ({ a with current_tasks := ts, status := if ts.isEmpty then .ready else a.status }, .ok r)
  | .raises e => ({ a with status := .error }, .error e)

/-- `execute_task` (lines 48-71) as one call: dispatch, then, if accepted, the
body outcome and its completion handling. -/
def execute_task (a : DomainAgent) (task_id : String) (impl : TaskOutcome) :
    DomainAgent × Except PyError ResultMap :=
  match a.dispatch task_id with
  | (a1, some e) => (a1, .error e)
  | (a1, none) => a1.finish task_id impl

/-- `shutdown` (lines 87-96): if a `MetricsClient` exists and its `close()`
raises, the status is left unchanged and the exception propagates; otherwise
the status becomes `SHUTDOWN`. -/
def shutdownStep (a : DomainAgent) (closeOk : Bool) : DomainAgent :=
  if a.metrics_client && !closeOk then a
  else { a with status := .shutdown }

end DomainAgent

/-- One observable operation on a `DomainAgent`: an `initialize` call, either
half of an `execute_task` call, or a `shutdown` call, each tagged with the
outcome of its out-of-scope effect. -/
inductive AgentOp where
  | initOp (metricsOk : Bool)
  | dispatchOp (task_id : String)
  | finishOp (task_id : String) (outcome : TaskOutcome)
  | shutdownOp (closeOk : Bool)
  deriving DecidableEq, Repr

/-- State transition of one operation.  A `finishOp` is the resumption of the
coroutine of a previously dispatched task, so it only applies to a task id
currently in flight. -/
def DomainAgent.step (a : DomainAgent) : AgentOp → DomainAgent
  | .initOp ok => a.initStep ok
  | .dispatchOp t => (a.dispatch t).1
  | .finishOp t outcome => if t ∈ a.current_tasks then (a.finish t outcome).1 else a
  | .shutdownOp ok => a.shutdownStep ok

/-- Running a sequence of operations. -/
def DomainAgent.run (a : DomainAgent) (ops : List AgentOp) : DomainAgent :=
  ops.foldl DomainAgent.step a

theorem DomainAgent.step_busy_nonempty (a : DomainAgent) (op : AgentOp)
    (ih : a.status = .busy → a.current_tasks ≠ []) :
    (a.step op).status = .busy → (a.step op).current_tasks ≠ [] := by
  cases op with
  | initOp ok =>
    by_cases h : ok <;> simp [step, initStep, h]
  | dispatchOp t =>
    simp only [step, dispatch]
    by_cases h1 : a.status ≠ .ready
    · simpa [h1] using ih
    · by_cases h2 : a.config.max_concurrent_tasks ≤ (a.current_tasks.length : Int)
      · simpa [h1, h2] using ih
      · simp [h1, h2]
  | finishOp t outcome =>
    by_cases hmem : t ∈ a.current_tasks
    · cases outcome with
      | success r =>
        simp only [step, if_pos hmem, finish]
        by_cases he : (a.current_tasks.erase t).isEmpty
        · simp [he]
        · intro hb
          simpa [List.isEmpty_iff] using he
      | raises e => simp [step, if_pos hmem, finish]
    · simpa [step, if_neg hmem] using ih
  | shutdownOp ok =>
    simp only [step, shutdownStep]
    by_cases h : a.metrics_client && !ok
    · simpa [h] using ih
    · simp [h]

theorem DomainAgent.run_busy_nonempty (ops : List AgentOp) :
    ∀ a : DomainAgent, (a.status = .busy → a.current_tasks ≠ []) →
      ((a.run ops).status = .busy → (a.run ops).current_tasks ≠ []) := by
  induction ops with
  | nil => intro a ih; simpa [run] using ih
  | cons op ops ihops =>
    intro a ih
    have := ihops (a.step op) (DomainAgent.step_busy_nonempty a op ih)
    simpa [run, List.foldl_cons] using this

/-- Agent config with `max_concurrent_tasks = 1`, for the C2 instances. -/
def cfgCap1 : AgentConfig :=
  { agent_id := "agent-1", capabilities := [.data_analysis], max_concurrent_tasks := 1 }

/-- Agent config with the default `max_concurrent_tasks = 3`. -/
def cfgCap3 : AgentConfig :=
  { agent_id := "agent-1", capabilities := [.data_analysis] }

/-- Agent with capacity `M = 1` that has `M` tasks in flight. -/
def c2BusyAgent : DomainAgent :=
  (DomainAgent.new cfgCap1).run [.initOp true, .dispatchOp "t1"]

/-- Counterexample to C2: an agent with `max_concurrent_tasks = 1` and one
task in flight rejects the next `execute_task` call with the state error
`"is not ready"` (the status guard of line 50 fires first, because the agent
is `BUSY`), not with the capacity error `"at maximum capacity"` of line 54. -/
theorem execute_task_capacity_claim_counterexample :
    c2BusyAgent.current_tasks.length = 1 ∧
    cfgCap1.max_concurrent_tasks = 1 ∧
    (c2BusyAgent.execute_task "t2" (.success [])).2 =
      .error (.runtimeError "Agent agent-1 is not ready") ∧
    PyError.runtimeError "Agent agent-1 is not ready" ≠ c2BusyAgent.capacityError := by
  decide

/-- C2 (amended): while any task is in flight the agent's status is `BUSY`, so
every further `execute_task` call fails before any task-body code runs — but
with the `"is not ready"` state error of line 50, not the capacity error; the
state is unchanged and the result does not depend on the task body. -/
theorem execute_task_while_busy_state_error (a : DomainAgent) (task_id : String)
    (impl : TaskOutcome) (h : a.status = .busy) :
    a.execute_task task_id impl = (a, .error a.notReadyError) := by
  simp [DomainAgent.execute_task, DomainAgent.dispatch, h]

/-- Witness for C2 (amended) on the concrete busy agent. -/
theorem execute_task_while_busy_state_error_witness :
    c2BusyAgent.status = .busy ∧
    c2BusyAgent.execute_task "t2" (.success []) =
      (c2BusyAgent, .error c2BusyAgent.notReadyError) :=
  ⟨by decide, execute_task_while_busy_state_error c2BusyAgent "t2" (.success []) (by decide)⟩

/-- Ready agent with the default capacity, for the C3 instances. -/
def c3ReadyAgent : DomainAgent :=
  (DomainAgent.new cfgCap3).step (.initOp true)

/-- Counterexample to C3: an accepted `execute_task` invocation whose body
raises does NOT remove the task id from `current_tasks` — the `except` branch
(lines 68-71) skips the removal of line 63, so the id is still present. -/
theorem execute_task_exception_keeps_task_counterexample :
    (c3ReadyAgent.execute_task "t1" (.raises (.valueError "boom"))).1.current_tasks = ["t1"] ∧
    (["t1"] : List String) ≠ [] := by
  decide

/-- C3 (amended): for every accepted `execute_task` invocation, on success the
task id is removed and the status reverts to `READY` iff `current_tasks` is
then empty (and stays `BUSY` otherwise); on exception the status is set to
`ERROR` and the exception is re-raised to the caller, but the task id is NOT
removed from `current_tasks`. -/
theorem execute_task_completion_behavior (a : DomainAgent) (t : String) (r : ResultMap)
    (e : PyError) (hready : a.status = .ready)
    (hcap : (a.current_tasks.length : Int) < a.config.max_concurrent_tasks) :
    a.execute_task t (.success r) =
      ({ a with
          status := if ((a.current_tasks ++ [t]).erase t).isEmpty then .ready else .busy
          current_tasks := (a.current_tasks ++ [t]).erase t }, .ok r) ∧
    a.execute_task t (.raises e) =
      ({ a with status := .error, current_tasks := a.current_tasks ++ [t] }, .error e) := by
  have h1 : ¬a.status ≠ AgentStatus.ready := by simp [hready]
  have h2 : ¬(a.config.max_concurrent_tasks ≤ (a.current_tasks.length : Int)) := not_le.mpr hcap
  exact ⟨by simp [DomainAgent.execute_task, DomainAgent.dispatch, DomainAgent.finish, h1, h2],
    by simp [DomainAgent.execute_task, DomainAgent.dispatch, DomainAgent.finish, h1, h2]⟩

/-- Witness for C3 (amended) on a fresh ready agent. -/
theorem execute_task_completion_behavior_witness :
    c3ReadyAgent.status = .ready ∧
    ((c3ReadyAgent.current_tasks.length : Int) < c3ReadyAgent.config.max_concurrent_tasks) ∧
    (c3ReadyAgent.execute_task "t1" (.success [("k", "v")]) =
      ({ c3ReadyAgent with
          status := if ((c3ReadyAgent.current_tasks ++ ["t1"]).erase "t1").isEmpty then .ready else .busy
          current_tasks := (c3ReadyAgent.current_tasks ++ ["t1"]).erase "t1" }, .ok [("k", "v")]) ∧
     c3ReadyAgent.execute_task "t1" (.raises (.valueError "boom")) =
      ({ c3ReadyAgent with
          status := .error
          current_tasks := c3ReadyAgent.current_tasks ++ ["t1"] }, .error (.valueError "boom"))) :=
  ⟨by decide, by decide,
    execute_task_completion_behavior c3ReadyAgent "t1" [("k", "v")] (.valueError "boom")
      (by decide) (by decide)⟩

/-- Reachable agent state falsifying the C4 invariant: a failed task leaves
`ERROR` status with a non-empty `current_tasks`. -/
def c4ErrorAgent : DomainAgent :=
  (DomainAgent.new cfgCap3).run
    [.initOp true, .dispatchOp "t1", .finishOp "t1" (.raises (.valueError "boom"))]

/-- Counterexample to C4: after `initialize` succeeds, a task is dispatched
and its body raises, the agent is in status `ERROR` with `current_tasks =
["t1"]` — non-empty but not `BUSY`, so `BUSY ↔ current_tasks ≠ []` fails in a
reachable state. -/
theorem busy_iff_nonempty_counterexample :
    c4ErrorAgent.status = .error ∧ c4ErrorAgent.current_tasks = ["t1"] ∧
    ¬(c4ErrorAgent.status = .busy ↔ c4ErrorAgent.current_tasks ≠ []) := by
  decide

/-- C4 (amended): in every state reachable by any sequence of `initialize`,
`execute_task` halves (dispatch and completion, succeeding or raising) and
`shutdown` operations, if the status is `BUSY` then `current_tasks` is
non-empty.  The converse direction of the claimed invariant fails: a task
exception leaves status `ERROR` with non-empty `current_tasks`. -/
theorem busy_implies_current_tasks_nonempty (config : AgentConfig) (ops : List AgentOp)
    (h : ((DomainAgent.new config).run ops).status = .busy) :
    ((DomainAgent.new config).run ops).current_tasks ≠ [] :=
  DomainAgent.run_busy_nonempty ops (DomainAgent.new config) (by simp [DomainAgent.new]) h

/-- Witness for C4 (amended): a dispatched task makes the agent `BUSY` with a
non-empty task list. -/
theorem busy_implies_current_tasks_nonempty_witness :
    ((DomainAgent.new cfgCap3).run [.initOp true, .dispatchOp "t1"]).status = .busy ∧
    ((DomainAgent.new cfgCap3).run [.initOp true, .dispatchOp "t1"]).current_tasks ≠ [] :=
  ⟨by decide,
    busy_implies_current_tasks_nonempty cfgCap3 [.initOp true, .dispatchOp "t1"] (by decide)⟩

/-! ## AgentOrchestrator (`src/agents/agent_orchestrator.py`)

The concrete agent classes behind the orchestrator's agent map are thin
wrappers over external services and are out of scope; each is modelled by an
`AgentStub` giving the outcome (return value or raised exception) of each
outbound call the orchestrator makes on it. -/

/-- `OrchestratorMode` (lines 23-26). -/
inductive OrchestratorMode where
  | sequential
  | parallel
  | adaptive
  deriving DecidableEq, Repr

/-- `OrchestratorConfig` (lines 28-33). -/
structure OrchestratorConfig where
  mode : OrchestratorMode := .sequential
  max_retries : Int := 3
  timeout_seconds : Int := 300
  max_concurrent_tasks : Int := 3
  deriving DecidableEq, Repr

/-- `RunContext` (lines 35-40).  The `parent_context` back-reference is
modelled by the parent's topic (the claims never follow it). -/
structure RunContext where
  topic : String
  start_time : ℚ
  parent_topic : Option String := none
  metadata : List (String × String) := []
  deriving DecidableEq, Repr

/-- A plan entry passed to `execute_parallel`: `plan.get("agent_type")` plus
the remaining task parameters, elided to a payload string. -/
structure Plan where
  agent_type : Option String
  payload : String := ""
  deriving DecidableEq, Repr

/-- Boundary behaviour of one agent in the orchestrator's agent map: the
outcome of each outbound call.  `cleanup_behavior = none` models an agent
without a `cleanup` attribute (the `hasattr` check of line 167). -/
structure AgentStub where
  research_topic : String → Except PyError String := fun _ => .ok ""
  generate_documentation : String → Except PyError String := fun _ => .ok ""
  optimize_prompt : String → String → Except PyError String := fun _ _ => .ok ""
  execute_task : Plan → Except PyError String := fun _ => .ok ""
  cleanup_behavior : Option (Except PyError Unit) := some (.ok ())

/-- The result dict of `execute_workflow`: the success dict (lines 127-133,
which has no `error` key) or the error dict (lines 142-149).  `none` in
`error` means the key is absent; `none` in a step field is Python `None`. -/
structure WorkflowResults where
  error : Option String := none
  topic : String
  research : Option String := none
  documentation : Option String := none
  optimized_prompts : Option String := none
  analytics : Option String := none
  deriving DecidableEq, Repr

/-- `AgentOrchestrator` state (lines 43-50).  `data_hub` is `none` until
initialized; once present it is represented by the outcome its own `cleanup`
would have. -/
structure AgentOrchestrator where
  config : OrchestratorConfig
  agents : List (String × AgentStub)
  execution_history : List WorkflowResults
  context_store : List (String × RunContext)
  data_hub : Option (Except PyError Unit)

/-- The error dict returned by the `except` branch of `execute_workflow`
(lines 142-149): `error` bound to `str(e)`, every step value `None`. -/
def errorResult (topic : String) (e : PyError) : WorkflowResults :=
  { error := some e.str, topic := topic }

/-- The fixed dashboard task of the analytics step (lines 116-124). -/
def dashboardPlan : Plan := { agent_type := none, payload := "generate_dashboard" }

/-- `create_context` (lines 176-186): builds a `RunContext` and stores it in
`context_store` keyed by topic. -/
def AgentOrchestrator.create_context (o : AgentOrchestrator) (topic : String) (now : ℚ)
    (parent : Option String) : AgentOrchestrator × RunContext :=
  let context : RunContext := { topic := topic, start_time := now, parent_topic := parent }
  ({ o with context_store := dictInsert o.context_store topic context }, context)

/-- Body of `execute_workflow` (lines 96-149) once the agent map is populated:
create the context, run research → documentation → prompt → analytics in
order, each step only reached when every earlier step returned; the first
exception (including a `KeyError` on a missing agent key) jumps to the
`except` branch, which returns the error dict — the result is returned, never
re-raised, and `execution_history` is only appended on full success
(line 136). -/
def AgentOrchestrator.execute_workflow_core (o : AgentOrchestrator) (topic : String)
    (reasoning_effort : String) (now : ℚ) : AgentOrchestrator × WorkflowResults :=
  let oc := (o.create_context topic now none).1
  match dictLookup oc.agents "research" with
  | none => (oc, errorResult topic (.keyError "research"))
  | some research_agent =>
    match research_agent.research_topic topic with
    | .error e => (oc, errorResult topic e)
    | .ok research_results =>
      match dictLookup oc.agents "documentation" with
      | none => (oc, errorResult topic (.keyError "documentation"))
      | some documentation_agent =>
        match documentation_agent.generate_documentation topic with
        | .error e => (oc, errorResult topic e)
        | .ok docs =>
          match dictLookup oc.agents "prompt" with
          | none => (oc, errorResult topic (.keyError "prompt"))
          | some prompt_agent =>
            match prompt_agent.optimize_prompt ("Explain " ++ topic ++ " in detail")
                reasoning_effort with
            | .error e => (oc, errorResult topic e)
            | .ok optimized_prompts =>
              match dictLookup oc.agents "analytics" with
              | none => (oc, errorResult topic (.keyError "analytics"))
              | some analytics_agent =>
                match analytics_agent.execute_task dashboardPlan with
                | .error e => (oc, errorResult topic e)
                | .ok dashboard =>
                  let workflow_results : WorkflowResults :=
                    { error := none
                      topic := topic
                      research := some research_results
                      documentation := some docs
                      optimized_prompts := some optimized_prompts
                      analytics := some dashboard }
                  ({ oc with
                      execution_history := oc.execution_history ++ [workflow_results] },
                    workflow_results)

/-- `execute_workflow` (lines 89-149).  The bootstrap branch of lines 93-94
(`if not self.agents: await self.initialize()`) constructs the real agents
and the data hub; its outcome is the input `initResult` — an exception there
is caught by the same `except` branch. -/
def AgentOrchestrator.execute_workflow (o : AgentOrchestrator) (topic : String)
    (reasoning_effort : String) (now : ℚ)
    (initResult : Except PyError (List (String × AgentStub))) :
    AgentOrchestrator × WorkflowResults :=
  if o.agents.isEmpty then
    match initResult with
    | .error e => (o, errorResult topic e)
    | .ok ags => ({ o with agents := ags }).execute_workflow_core topic reasoning_effort now
  else o.execute_workflow_core topic reasoning_effort now

/-- An entry of the `execute_parallel` result dict (lines 204-210). -/
inductive TaskEntry where
  | errEntry (msg : String)
  | resultEntry (v : String)
  deriving DecidableEq, Repr

/-- The task dispatched for one plan by the loop of lines 191-199: `none`
when the plan's `agent_type` is missing or not a key of the agent map (the
loop logs `"Unknown agent type"` and `continue`s — no task, no entry). -/
def AgentOrchestrator.planTask (o : AgentOrchestrator) (plan : Plan) :
    Option (Except PyError String) :=
  match plan.agent_type with
  | none => none
  | some atype =>
    match dictLookup o.agents atype with
    | none => none
    | some agent => some (agent.execute_task plan)

/-- `execute_parallel` (lines 188-212): dispatch a task per plan with a known
agent type, gather with exception capture, then key the settled results
`task_i` by gather index; an exception becomes an `error` entry. -/
def AgentOrchestrator.execute_parallel (o : AgentOrchestrator) (plans : List Plan) :
    List (String × TaskEntry) :=
  let tasks := plans.filterMap o.planTask
  tasks.enum.map (fun p =>
    ("task_" ++ toString p.1,
      match p.2 with
      | .error e => TaskEntry.errEntry e.str
      | .ok v => TaskEntry.resultEntry v))

/-- The agent loop of `cleanup` (lines 166-168), run inside the `try`:
returns the names of the agents whose `cleanup` was invoked, in order, and
the first raised exception if any — a raise aborts the loop. -/
def cleanupAgents : List (String × AgentStub) → List String × Option PyError
  | [] => ([], none)
  | (name, ag) :: rest =>
    match ag.cleanup_behavior with
    | none => cleanupAgents rest
    | some (.ok _) =>
      let r := cleanupAgents rest
      (name :: r.1, r.2)
    | some (.error e) => ([name], some e)

/-- `cleanup` (lines 163-174): the agent loop, then the data hub; the
`except` branch (lines 172-174) logs and RE-RAISES, so the first failure
aborts the remaining cleanups and escapes to the caller (`some e`). -/
def AgentOrchestrator.cleanup (o : AgentOrchestrator) : List String × Option PyError :=
  match cleanupAgents o.agents with
  | (called, some e) => (called, some e)
  | (called, none) =>
    match o.data_hub with
    | none => (called, none)
    | some (.ok _) => (called, none)
    | some (.error e) => (called, some e)

/-- Agent stub all of whose calls succeed with the given result. -/
def okAgent (result : String) : AgentStub :=
  { research_topic := fun _ => .ok result
    generate_documentation := fun _ => .ok result
    optimize_prompt := fun _ _ => .ok result
    execute_task := fun _ => .ok result }

/-- Agent stub all of whose calls raise the given exception. -/
def raisingAgent (e : PyError) : AgentStub :=
  { research_topic := fun _ => .error e
    generate_documentation := fun _ => .error e
    optimize_prompt := fun _ _ => .error e
    execute_task := fun _ => .error e
    cleanup_behavior := some (.error e) }

/-- C1 (code bug): with the research step configured to always raise
`ValueError("boom")`, `execute_workflow` catches the exception and returns
the error dict — it does not re-raise — and it does so for EVERY
`OrchestratorConfig`: the config has no error-handling field, so no STRICT
configuration exists under which the exception would propagate to the caller,
contradicting the claim (and the repository's own
`test_error_handling_strict`, which expects `pytest.raises`). -/
theorem execute_workflow_always_catches (cfg : OrchestratorConfig) :
    (AgentOrchestrator.execute_workflow
      { config := cfg
        agents := [("research", raisingAgent (.valueError "boom")),
                   ("documentation", okAgent "d"), ("prompt", okAgent "p"),
                   ("analytics", okAgent "a")]
        execution_history := []
        context_store := []
        data_hub := none } "X" "balanced" 0 (.ok [])).2 =
      { error := some "boom", topic := "X" } := rfl

/-- Orchestrator for the C7 scenario: default (SEQUENTIAL) config, research
step raising `ValueError("boom")`, every other step succeeding, empty
history. -/
def c7Orchestrator : AgentOrchestrator :=
  { config := {}
    agents := [("research", raisingAgent (.valueError "boom")),
               ("documentation", okAgent "docs"), ("prompt", okAgent "opt"),
               ("analytics", okAgent "dash")]
    execution_history := []
    context_store := []
    data_hub := none }

/-- Counterexample to C7: in the claimed scenario the returned map's `error`
entry does contain the message, but `execution_history` does NOT grow by one:
the append (line 136) sits after all steps inside the `try`, so the failed
workflow leaves the history unchanged. -/
theorem workflow_error_history_unchanged_counterexample :
    (c7Orchestrator.execute_workflow "X" "balanced" 0 (.ok [])).2.error = some "boom" ∧
    (c7Orchestrator.execute_workflow "X" "balanced" 0 (.ok [])).1.execution_history.length =
      c7Orchestrator.execution_history.length ∧
    (c7Orchestrator.execute_workflow "X" "balanced" 0 (.ok [])).1.execution_history.length ≠
      c7Orchestrator.execution_history.length + 1 :=
  ⟨rfl, rfl, by decide⟩

/-- C7 (amended): when the research step raises, `execute_workflow` returns a
result map whose `error` entry is exactly the exception message, and
`execution_history` length increases by exactly 0 — the failed workflow is
not recorded. -/
theorem workflow_research_error_returns_error_map (o : AgentOrchestrator)
    (topic effort : String) (now : ℚ) (ir : Except PyError (List (String × AgentStub)))
    (ag : AgentStub) (e : PyError)
    (hne : o.agents.isEmpty = false)
    (hag : dictLookup o.agents "research" = some ag)
    (hraise : ag.research_topic topic = .error e) :
    (o.execute_workflow topic effort now ir).2.error = some e.str ∧
    (o.execute_workflow topic effort now ir).1.execution_history = o.execution_history := by
  simp [AgentOrchestrator.execute_workflow, hne, AgentOrchestrator.execute_workflow_core,
    AgentOrchestrator.create_context, hag, hraise, errorResult]

/-- Witness for C7 (amended) on the concrete scenario orchestrator. -/
theorem workflow_research_error_returns_error_map_witness :
    c7Orchestrator.agents.isEmpty = false ∧
    dictLookup c7Orchestrator.agents "research" = some (raisingAgent (.valueError "boom")) ∧
    (raisingAgent (.valueError "boom")).research_topic "X" = .error (.valueError "boom") ∧
    ((c7Orchestrator.execute_workflow "X" "balanced" 0 (.ok [])).2.error =
        some (PyError.valueError "boom").str ∧
      (c7Orchestrator.execute_workflow "X" "balanced" 0 (.ok [])).1.execution_history =
        c7Orchestrator.execution_history) :=
  ⟨rfl, rfl, rfl,
    workflow_research_error_returns_error_map c7Orchestrator "X" "balanced" 0 (.ok [])
      (raisingAgent (.valueError "boom")) (.valueError "boom") rfl rfl rfl⟩

theorem length_filterMap_eq_length_filter {α β : Type} (f : α → Option β) (l : List α) :
    (l.filterMap f).length = (l.filter fun a => (f a).isSome).length := by
  induction l with
  | nil => simp
  | cons x xs ih =>
    cases hfx : f x <;> simp [List.filterMap_cons, List.filter_cons, hfx, ih]

/-- C5 (amended): `execute_parallel` returns one entry per plan whose
`agent_type` names a known agent (per-task exceptions are captured as error
entries, and no exception escapes — the function always returns); plans with
an unknown or missing `agent_type` are silently skipped with only a log line
and contribute NO entry, so the result can have fewer entries than plans. -/
theorem execute_parallel_entry_count (o : AgentOrchestrator) (plans : List Plan) :
    (o.execute_parallel plans).length =
      (plans.filter (fun plan => (o.planTask plan).isSome)).length := by
  simp [AgentOrchestrator.execute_parallel, length_filterMap_eq_length_filter]

/-- Orchestrator for the C5 instance: two known agents. -/
def c5Orchestrator : AgentOrchestrator :=
  { config := {}
    agents := [("research", okAgent "r1"), ("documentation", okAgent "r3")]
    execution_history := []
    context_store := []
    data_hub := none }

/-- Three plans of which the middle one names the unknown agent type
`"bogus"`. -/
def c5Plans : List Plan :=
  [{ agent_type := some "research" }, { agent_type := some "bogus" },
   { agent_type := some "documentation" }]

/-- Counterexample to C5: with 3 plans of which plan 2 references agent type
`"bogus"`, `execute_parallel` returns only 2 entries — the bogus plan yields
no entry at all (it is skipped with a log line), not an error entry naming
the unknown agent type. -/
theorem execute_parallel_unknown_agent_counterexample :
    c5Orchestrator.execute_parallel c5Plans =
      [("task_0", .resultEntry "r1"), ("task_1", .resultEntry "r3")] ∧
    (c5Orchestrator.execute_parallel c5Plans).length ≠ c5Plans.length :=
  ⟨rfl, by decide⟩

theorem cleanupAgents_append_fail (pre : List (String × AgentStub)) (name : String)
    (ag : AgentStub) (post : List (String × AgentStub)) (e : PyError)
    (hpre : ∀ p ∈ pre, p.2.cleanup_behavior = none ∨ p.2.cleanup_behavior = some (.ok ()))
    (hag : ag.cleanup_behavior = some (.error e)) :
    cleanupAgents (pre ++ (name, ag) :: post) =
      ((pre.filter (fun p => p.2.cleanup_behavior.isSome)).map Prod.fst ++ [name], some e) := by
  induction pre with
  | nil => simp [cleanupAgents, hag]
  | cons q rest ih =>
    have hrest : ∀ p ∈ rest, p.2.cleanup_behavior = none ∨ p.2.cleanup_behavior = some (.ok ()) :=
      fun p hp => hpre p (List.mem_cons_of_mem q hp)
    obtain ⟨qn, qa⟩ := q
    rcases hpre (qn, qa) (List.mem_cons_self _ _) with hq | hq
    · simp only [Prod.snd] at hq
      simp [cleanupAgents, hq, List.filter_cons, ih hrest]
    · simp only [Prod.snd] at hq
      simp [cleanupAgents, hq, List.filter_cons, ih hrest]

/-- C6 (amended): `cleanup` is fail-fast, not best-effort: when the agents
before some agent all have a succeeding (or absent) `cleanup` and that
agent's `cleanup` raises, `orchestrator.cleanup` invokes `cleanup` only on
the agents up to and including the raising one, never reaches the later
agents, and the exception escapes to the caller instead of being swallowed. -/
theorem cleanup_aborts_at_first_failure (cfg : OrchestratorConfig)
    (pre post : List (String × AgentStub)) (name : String) (ag : AgentStub) (e : PyError)
    (hist : List WorkflowResults) (ctx : List (String × RunContext))
    (hub : Option (Except PyError Unit))
    (hpre : ∀ p ∈ pre, p.2.cleanup_behavior = none ∨ p.2.cleanup_behavior = some (.ok ()))
    (hag : ag.cleanup_behavior = some (.error e)) :
    (AgentOrchestrator.mk cfg (pre ++ (name, ag) :: post) hist ctx hub).cleanup =
      ((pre.filter (fun p => p.2.cleanup_behavior.isSome)).map Prod.fst ++ [name], some e) := by
  simp [AgentOrchestrator.cleanup, cleanupAgents_append_fail pre name ag post e hpre hag]

/-- Witness for C6 (amended): three agents, the middle one failing. -/
theorem cleanup_aborts_at_first_failure_witness :
    (∀ p ∈ [("agent0", okAgent "x")],
      p.2.cleanup_behavior = none ∨ p.2.cleanup_behavior = some (.ok ())) ∧
    (raisingAgent (.valueError "fail")).cleanup_behavior = some (.error (.valueError "fail")) ∧
    (AgentOrchestrator.mk {}
        ([("agent0", okAgent "x")] ++
          ("agent1", raisingAgent (.valueError "fail")) :: [("agent2", okAgent "y")])
        [] [] none).cleanup =
      (([("agent0", okAgent "x")].filter (fun p => p.2.cleanup_behavior.isSome)).map Prod.fst ++
        ["agent1"], some (.valueError "fail")) :=
  ⟨by decide, rfl,
    cleanup_aborts_at_first_failure {} [("agent0", okAgent "x")] [("agent2", okAgent "y")]
      "agent1" (raisingAgent (.valueError "fail")) (.valueError "fail") [] [] none
      (by decide) rfl⟩

/-- Orchestrator for the C6 counterexample: the first agent's cleanup raises,
a second agent follows. -/
def c6Orchestrator : AgentOrchestrator :=
  { config := {}
    agents := [("agent1", raisingAgent (.valueError "cleanup-fail")), ("agent2", okAgent "r")]
    execution_history := []
    context_store := []
    data_hub := none }

/-- Counterexample to C6: when the first of two agents raises during
`cleanup`, the orchestrator never invokes the second agent's `cleanup` (its
name is absent from the invoked list) and the exception escapes instead of
being recorded-and-swallowed. -/
theorem cleanup_fail_fast_counterexample :
    c6Orchestrator.cleanup = (["agent1"], some (.valueError "cleanup-fail")) ∧
    "agent2" ∉ c6Orchestrator.cleanup.1 ∧
    c6Orchestrator.cleanup.2 ≠ none :=
  ⟨rfl, by decide, by decide⟩
